import Mathlib

/-!
Shallow embedding of `SoftLayer/managers/load_balancer.py`
(class `LoadBalancerManager`).

Modelling conventions:

* Remote responses (the values returned by `getItems`, `getVirtualServers`,
  `getObject`, `getBillingItem`, `getDataCenters`) are inputs of the Lean
  functions, quantified over arbitrary well-typed values: the remote side is
  an opaque collaborator and the spec only constrains the client-side
  shaping of requests and payloads.
* A Python dict of a fixed remote record shape becomes a structure; a key
  that can be absent on a locally built template (`id` of a freshly built
  service / virtual-server / service-group template) becomes an `Option`
  field with `none` for "key absent".
* A method that can raise locally before reaching its remote submit call
  returns `Except PyErr`; `Except.ok` carries the payload that the method
  passes to the remote edit/submit call (or, for `cancel_lb` and
  `reset_service_group`, the call trace / the id passed to the final call).
* Python `for x in lst:` loops that only read or that rebuild each element
  become `mapME` (element-wise effectful map that stops at the first raised
  exception, exactly as an in-place loop that raises would, since the
  mutated copy is only observable at the submit call that is never
  reached).
* Machine integers: SoftLayer ids, ports, weights and the `-1`/`0`
  sentinels are ordinary Python ints, modelled as `Int`.
-/

/-- Local Python exceptions that the manager can raise before its remote
submit call is reached. -/
inductive PyErr where
  | indexError
  | typeError
  | attributeError
deriving DecidableEq, Repr

/-- Element-wise effectful map over a list in the `Except` monad, stopping at
the first error: the embedding of a Python `for` loop whose body may raise. -/
def mapME {α β ε : Type} (f : α → Except ε β) : List α → Except ε (List β)
  | [] => Except.ok []
  | a :: as =>
    match f a with
    | Except.error e => Except.error e
    | Except.ok b =>
      match mapME f as with
      | Except.error e => Except.error e
      | Except.ok bs => Except.ok (b :: bs)

theorem mapME_ok_of_eq {α β ε : Type} (f : α → Except ε β) (g : α → β)
    (l : List α) (h : ∀ a ∈ l, f a = Except.ok (g a)) :
    mapME f l = Except.ok (l.map g) := by
  induction l with
  | nil => rfl
  | cons a as ih =>
    have ha := h a (List.mem_cons_self a as)
    have hrest := ih (fun x hx => h x (List.mem_cons_of_mem a hx))
    simp [mapME, ha, hrest]

theorem mapME_ok_forall₂ {α β ε : Type} (f : α → Except ε β)
    (l : List α) (l' : List β) (h : mapME f l = Except.ok l') :
    List.Forall₂ (fun a b => f a = Except.ok b) l l' := by
  induction l generalizing l' with
  | nil =>
    simp only [mapME] at h
    cases h
    exact List.Forall₂.nil
  | cons a as ih =>
    simp only [mapME] at h
    cases hfa : f a with
    | error e => rw [hfa] at h; cases h
    | ok b =>
      rw [hfa] at h
      cases hrest : mapME f as with
      | error e => rw [hrest] at h; cases h
      | ok bs =>
        rw [hrest] at h
        cases h
        exact List.Forall₂.cons hfa (ih bs hrest)

/-! ## Data model

Record shapes of the remote objects that the manager fetches and edits,
as determined by the object masks used in the source
(`serviceGroups[services[groupReferences,healthChecks]]` and
`virtualServers[serviceGroups[services[groupReferences]]]`). -/

/-- One `groupReferences` entry of a service.  A freshly built template
(`add_service`) carries only a `weight` key, so `serviceId` is optional. -/
structure GroupRef where
  serviceId : Option Int
  weight : Int
deriving DecidableEq, Repr

/-- One `healthChecks` entry of a service.  A freshly built template
(`add_service`) carries only a `healthCheckTypeId` key. -/
structure HealthCheck where
  id : Option Int
  healthCheckTypeId : Int
deriving DecidableEq, Repr

/-- A load-balancer service record.  Fetched services always carry an `id`;
the template built by `add_service` has no `id` key (`none`). -/
structure Service where
  id : Option Int
  enabled : Int
  port : Int
  ipAddressId : Int
  groupReferences : List GroupRef
  healthChecks : List HealthCheck
deriving DecidableEq, Repr

/-- A service-group record.  Fetched groups carry an `id`; the nested group
template built by `add_service_group` carries only routing type/method. -/
structure ServiceGroup where
  id : Option Int
  routingTypeId : Int
  routingMethodId : Int
  services : List Service
deriving DecidableEq, Repr

/-- A virtual-server record (service-group container).  Fetched virtual
servers carry an `id`; the template appended by `add_service_group` does
not. -/
structure VirtualServer where
  id : Option Int
  allocation : Int
  port : Int
  serviceGroups : List ServiceGroup
deriving DecidableEq, Repr

/-- The fetched load balancer as used by `add_service`, `add_service_group`
and `edit_service_group`: its own id plus the masked virtual-server tree. -/
structure LoadBalancer where
  id : Int
  virtualServers : List VirtualServer
deriving DecidableEq, Repr

/-! ## get_lb_pkgs (C1) -/

/-- A product-package item as returned by `Product_Package.getItems`. -/
structure Package where
  description : String
deriving DecidableEq, Repr

/-- Embedding of `get_lb_pkgs` applied to the catalog returned by
`getItems`.  The source loop body evaluates
`package['description'].startsWith('Global')`, but Python strings have no
`startsWith` attribute (the method is spelled `startswith`), so the first
iteration raises `AttributeError`; hence the call raises on every
non-empty catalog and only an empty catalog is ever returned. -/
def get_lb_pkgs (packages : List Package) : Except PyErr (List Package) :=
  match packages with
  | [] => Except.ok []
  | _ :: _ => Except.error PyErr.attributeError

/-- Model of Python `s.startswith(pre)` on the character sequences of the
two strings. -/
def startswith (s pre : String) : Bool :=
  List.isPrefixOf pre.data s.data

/-- The source loop of `get_lb_pkgs` under the evidently intended spelling
`startswith`: a faithful model of CPython iteration over a list that is
mutated by `list.remove` inside the loop.  The iterator keeps a cursor `i`
that advances after every yielded element, and `remove` deletes the first
occurrence equal to the yielded element, so the element following a removed
one is skipped.  `fuel` bounds the number of iterations only to make the
recursion structural; it is never exhausted when `fuel ≥ l.length - i`,
since each iteration raises `i` by one and never lengthens `l`. -/
def get_lb_pkgs_intended_loop (fuel : Nat) (l : List Package) (i : Nat) :
    List Package :=
  match fuel with
  | 0 => l
  | fuel + 1 =>
    if h : i < l.length then
      if startswith (l.get ⟨i, h⟩).description ("Global") then
        get_lb_pkgs_intended_loop fuel (l.erase (l.get ⟨i, h⟩)) (i + 1)
      else
        get_lb_pkgs_intended_loop fuel l (i + 1)
    else l

/-- `get_lb_pkgs` with the intended `startswith` spelling: filter the
catalog by removing `Global`-prefixed entries during iteration. -/
def get_lb_pkgs_intended (packages : List Package) : List Package :=
  get_lb_pkgs_intended_loop packages.length packages 0

/-! ## get_location (C6) -/

/-- One record of `Location.getDataCenters`. -/
structure Datacenter where
  name : String
  id : Int
deriving DecidableEq, Repr

/-- Result of `get_location`: the Python function returns either the int
`dcenter['id']` of the first name match or the string `'FIRST_AVAILABLE'`. -/
inductive LocationResult where
  | locationId (i : Int)
  | firstAvailable
deriving DecidableEq, Repr

/-- Embedding of `get_location` applied to the record list returned by
`Location.getDataCenters`: scan in order for an exact name match and return
its id, falling back to the `FIRST_AVAILABLE` sentinel.  The function is
total: no input makes it raise. -/
def get_location (dcenters : List Datacenter) (datacenter : String) :
    LocationResult :=
  match dcenters with
  | [] => LocationResult.firstAvailable
  | d :: rest =>
    if d.name = datacenter then LocationResult.locationId d.id
    else get_location rest datacenter

/-! ## cancel_lb (C4, C5) -/

/-- The two remote calls that `cancel_lb` can issue, with the id keyword
argument each is invoked with. -/
inductive BillingCall where
  | getBillingItem (id : Int)
  | cancelService (id : Int)
deriving DecidableEq, Repr

/-- The billing-item record; `getBillingItem` returns either such a record
or `None` when the load balancer has no billing item. -/
structure BillingItem where
  id : Int
deriving DecidableEq, Repr

/-- Embedding of `cancel_lb`.  `getBillingItemResp` is the remote response
of `getBillingItem` keyed by load-balancer id (`none` models Python
`None`).  Returns the list of remote calls issued, in order, together with
the id passed to `cancelService` — or the local error raised instead:
when the lookup returns `None`, the subscript `lb_billing['id']` raises
`TypeError` before the second call is ever built. -/
def cancel_lb (getBillingItemResp : Int → Option BillingItem)
    (loadbal_id : Int) : List BillingCall × Except PyErr Int :=
  match getBillingItemResp loadbal_id with
  | none =>
    ([BillingCall.getBillingItem loadbal_id], Except.error PyErr.typeError)
  | some lb_billing =>
    ([BillingCall.getBillingItem loadbal_id,
      BillingCall.cancelService lb_billing.id],
     Except.ok lb_billing.id)

/-! ## edit_service (C2, C3, C9, C10) -/

/-- The per-service body of the `edit_service` loop: for a service whose id
matches, apply each field whose caller-supplied value differs from its
sentinel, in source order (enabled, port, weight, hc_type, ip_address_id).
Setting the weight (resp. the health-check type) subscripts
`groupReferences[0]` (resp. `healthChecks[0]`) and raises `IndexError` when
that list is empty. -/
def updService (service_id ip_address_id port enabled hc_type weight : Int)
    (service : Service) : Except PyErr Service :=
  if service.id = some service_id then
    let s1 := if enabled ≠ -1 then { service with enabled := enabled }
              else service
    let s2 := if port ≠ -1 then { s1 with port := port } else s1
    match (if weight ≠ -1 then
             match s2.groupReferences with
             | [] => Except.error PyErr.indexError
             | g :: gs =>
               Except.ok { s2 with groupReferences := { g with weight := weight } :: gs }
           else Except.ok s2 : Except PyErr Service) with
    | Except.error e => Except.error e
    | Except.ok s3 =>
      match (if hc_type ≠ -1 then
               match s3.healthChecks with
               | [] => Except.error PyErr.indexError
               | h :: hs =>
                 Except.ok { s3 with
                   healthChecks := { h with healthCheckTypeId := hc_type } :: hs }
             else Except.ok s3 : Except PyErr Service) with
      | Except.error e => Except.error e
      | Except.ok s4 =>
        Except.ok (if ip_address_id ≠ 0 then { s4 with ipAddressId := ip_address_id }
                   else s4)
  else Except.ok service

/-- Embedding of `edit_service` applied to the virtual-server list returned
by the filtered `getVirtualServers` fetch.  The source iterates over
`virtual_servers[0]['serviceGroups'][0]['services']` — both subscripts
raise `IndexError` on an empty list — mutating the matching service dicts
in place, and then submits `{'virtualServers': virtual_servers}` (the whole
fetched list, first group of the first entry mutated) to `editObject`.
`Except.ok` carries the `virtualServers` payload submitted. -/
def edit_service (virtual_servers : List VirtualServer)
    (service_id ip_address_id port enabled hc_type weight : Int) :
    Except PyErr (List VirtualServer) :=
  match virtual_servers with
  | [] => Except.error PyErr.indexError
  | v0 :: vrest =>
    match v0.serviceGroups with
    | [] => Except.error PyErr.indexError
    | g0 :: grest =>
      match mapME (updService service_id ip_address_id port enabled hc_type weight)
          g0.services with
      | Except.error e => Except.error e
      | Except.ok services' =>
        Except.ok
          ({ v0 with serviceGroups := { g0 with services := services' } :: grest }
            :: vrest)

/-! ## add_service (C10) -/

/-- The service template dict built inside `add_service`: a fresh service
record with no `id` key and single-element health-check and
group-reference lists. -/
def service_template (ip_address_id port enabled hc_type weight : Int) : Service :=
  { id := none
    enabled := enabled
    port := port
    ipAddressId := ip_address_id
    groupReferences := [{ serviceId := none, weight := weight }]
    healthChecks := [{ id := none, healthCheckTypeId := hc_type }] }

/-- The per-virtual-server body of the `add_service` loop: for a virtual
server whose id matches the target service-group id, append the service
template to `serviceGroups[0]['services']` (raising `IndexError` when
`serviceGroups` is empty); leave every other virtual server untouched. -/
def addServiceBody (service_group_id ip_address_id port enabled hc_type weight : Int)
    (virtual_server : VirtualServer) : Except PyErr VirtualServer :=
  if virtual_server.id = some service_group_id then
    match virtual_server.serviceGroups with
    | [] => Except.error PyErr.indexError
    | g0 :: grest =>
      Except.ok { virtual_server with
        serviceGroups :=
          { g0 with services := g0.services ++
              [service_template ip_address_id port enabled hc_type weight] }
            :: grest }
  else Except.ok virtual_server

/-- Embedding of `add_service` applied to the load balancer returned by the
masked `getObject` fetch: run the loop body over the fetched virtual-server
list, then submit the whole load balancer.  `Except.ok` carries the
submitted payload. -/
def add_service (load_balancer : LoadBalancer)
    (service_group_id ip_address_id port enabled hc_type weight : Int) :
    Except PyErr LoadBalancer :=
  match mapME (addServiceBody service_group_id ip_address_id port enabled hc_type weight)
      load_balancer.virtualServers with
  | Except.error e => Except.error e
  | Except.ok vs' => Except.ok { load_balancer with virtualServers := vs' }

/-! ## add_service_group (C7) -/

/-- Embedding of `add_service_group` applied to the fetched load balancer:
build the virtual-server template (no `id` key; port, allocation, and one
nested service-group record carrying only routing type/method), append it
to the fetched `virtualServers` list, and submit the whole load balancer.
Total: no subscript is evaluated, so no input makes it raise. -/
def add_service_group (load_balancer : LoadBalancer)
    (allocation port routing_type routing_method : Int) : LoadBalancer :=
  { load_balancer with
    virtualServers := load_balancer.virtualServers ++
      [{ id := none
         allocation := allocation
         port := port
         serviceGroups := [{ id := none
                             routingTypeId := routing_type
                             routingMethodId := routing_method
                             services := [] }] }] }

/-! ## edit_service_group (C10) -/

/-- The per-virtual-server body of the `edit_service_group` loop: for a
virtual server whose id equals `group_id`, first take `serviceGroups[0]`
(raising `IndexError` when the list is empty, even if all routing
parameters are sentinels), then conditionally overwrite allocation/port on
the virtual server and routing type/method on that first group, in source
order; leave every other virtual server untouched. -/
def editServiceGroupBody (group_id allocation port routing_type routing_method : Int)
    (virtual_server : VirtualServer) : Except PyErr VirtualServer :=
  if virtual_server.id = some group_id then
    match virtual_server.serviceGroups with
    | [] => Except.error PyErr.indexError
    | g0 :: grest =>
      let v1 := if allocation ≠ -1 then { virtual_server with allocation := allocation }
                else virtual_server
      let v2 := if port ≠ 0 then { v1 with port := port } else v1
      let g1 := if routing_type ≠ 0 then { g0 with routingTypeId := routing_type }
                else g0
      let g2 := if routing_method ≠ 0 then { g1 with routingMethodId := routing_method }
                else g1
      Except.ok { v2 with serviceGroups := g2 :: grest }
  else Except.ok virtual_server

/-- Embedding of `edit_service_group` proper: run the loop body over the
fetched virtual-server list and submit the whole load balancer.
`Except.ok` carries the submitted payload. -/
def edit_service_group (load_balancer : LoadBalancer)
    (group_id allocation port routing_type routing_method : Int) :
    Except PyErr LoadBalancer :=
  match mapME (editServiceGroupBody group_id allocation port routing_type routing_method)
      load_balancer.virtualServers with
  | Except.error e => Except.error e
  | Except.ok vs' => Except.ok { load_balancer with virtualServers := vs' }

/-! ## reset_service_group (C8) -/

/-- Embedding of `reset_service_group` applied to the virtual-server list
returned by the filtered `getVirtualServers` fetch.  The caller-supplied
`group_id` only shapes the remote filter; the id actually passed to
`kickAllConnections` is `virtual_servers[0]['serviceGroups'][0]['id']`
(each subscript raising `IndexError` on an empty list).  `Except.ok`
carries the id passed to the kick call. -/
def reset_service_group (virtual_servers : List VirtualServer)
    (group_id : Int) : Except PyErr (Option Int) :=
  match virtual_servers with
  | [] => Except.error PyErr.indexError
  | v0 :: _ =>
    match v0.serviceGroups with
    | [] => Except.error PyErr.indexError
    | g0 :: _ => Except.ok g0.id

/-! ## Helper lemmas about the edit_service loop body -/

theorem updService_not_matching (service_id ip_address_id port enabled hc_type weight : Int)
    (service : Service) (h : service.id ≠ some service_id) :
    updService service_id ip_address_id port enabled hc_type weight service =
      Except.ok service := by
  unfold updService
  rw [if_neg h]

theorem updService_all_sentinels (service_id : Int) (service : Service) :
    updService service_id 0 (-1) (-1) (-1) (-1) service = Except.ok service := by
  unfold updService
  by_cases h : service.id = some service_id <;> simp [h]

theorem updService_port_only (service_id port : Int) (hp : port ≠ -1)
    (service : Service) :
    updService service_id 0 port (-1) (-1) (-1) service =
      Except.ok (if service.id = some service_id then { service with port := port }
                 else service) := by
  unfold updService
  by_cases h : service.id = some service_id <;> simp [h, hp]

/-- Unfolding of `edit_service` on a tree whose first virtual server has a
first service group: the submitted payload replaces just that group's
services with the element-wise loop results. -/
theorem edit_service_cons (v0 : VirtualServer) (vrest : List VirtualServer)
    (g0 : ServiceGroup) (grest : List ServiceGroup)
    (hg : v0.serviceGroups = g0 :: grest)
    (service_id ip_address_id port enabled hc_type weight : Int) :
    edit_service (v0 :: vrest) service_id ip_address_id port enabled hc_type weight =
      match mapME (updService service_id ip_address_id port enabled hc_type weight)
          g0.services with
      | Except.error e => Except.error e
      | Except.ok services' =>
        Except.ok
          ({ v0 with serviceGroups := { g0 with services := services' } :: grest }
            :: vrest) := by
  simp only [edit_service]
  rw [hg]

/-! ## Sample fetched data used by the closed witness statements -/

/-- A sample fetched service with id 9. -/
def sampleService : Service :=
  { id := some 9
    enabled := 1
    port := 8080
    ipAddressId := 11
    groupReferences := [{ serviceId := some 9, weight := 3 }]
    healthChecks := [{ id := some 5, healthCheckTypeId := 21 }] }

/-- A sample sibling service with id 12 in the same group. -/
def sampleSibling : Service :=
  { id := some 12
    enabled := 0
    port := 8443
    ipAddressId := 13
    groupReferences := [{ serviceId := some 12, weight := 7 }]
    healthChecks := [{ id := some 6, healthCheckTypeId := 21 }] }

/-- A sample fetched service group holding the two sample services. -/
def sampleGroup : ServiceGroup :=
  { id := some 4
    routingTypeId := 2
    routingMethodId := 10
    services := [sampleService, sampleSibling] }

/-- A sample fetched virtual server holding the sample group. -/
def sampleVS : VirtualServer :=
  { id := some 7
    allocation := 100
    port := 80
    serviceGroups := [sampleGroup] }

/-- A sample fetched virtual-server tree. -/
def sampleTree : List VirtualServer := [sampleVS]

/-- A sample fetched load balancer. -/
def sampleLB : LoadBalancer := { id := 55, virtualServers := [sampleVS] }

/-! ## C1 -/

/-- C1: the claim that no returned catalog entry is `Global`-marked fails on
the code.  First conjunct: as written, the loop body calls the non-existent
string method `startsWith`, so `get_lb_pkgs` raises `AttributeError` on any
non-empty catalog instead of returning a filtered list.  Second and third
conjuncts: even under the evidently intended `startswith` spelling, removing
a list element while iterating skips the following element, so of two
consecutive `Global` packages the second survives into the returned list. -/
theorem get_lb_pkgs_global_bug :
    get_lb_pkgs [{ description := "Global Load Balancer 150" }] =
      Except.error PyErr.attributeError ∧
    get_lb_pkgs_intended
        [{ description := "Global Load Balancer 150" },
         { description := "Global Load Balancer 250" }] =
      [{ description := "Global Load Balancer 250" }] ∧
    startswith ("Global Load Balancer 250") ("Global") = true := by
  refine ⟨rfl, by decide, by decide⟩

/-! ## C2 -/

/-- C2: calling `edit_service` with every parameter at its sentinel value
(`ip_address_id=0`, `port=-1`, `enabled=-1`, `hc_type=-1`, `weight=-1`)
submits the fetched virtual-server tree unchanged: every field of the
matching service node (and of every other node) is identical to its fetched
state, so 0 can never be set for `ipAddressId` and -1 can never be set for
`port`, `enabled`, `weight` or `healthCheckTypeId` through this path. -/
theorem edit_service_all_sentinels_id
    (virtual_servers : List VirtualServer) (service_id : Int)
    (v0 : VirtualServer) (vrest : List VirtualServer)
    (g0 : ServiceGroup) (grest : List ServiceGroup)
    (hv : virtual_servers = v0 :: vrest)
    (hg : v0.serviceGroups = g0 :: grest) :
    edit_service virtual_servers service_id 0 (-1) (-1) (-1) (-1) =
      Except.ok virtual_servers := by
  subst hv
  rw [edit_service_cons v0 vrest g0 grest hg,
    mapME_ok_of_eq _ id _ (fun s _ => updService_all_sentinels service_id s)]
  simp only [List.map_id]
  rw [← hg]

/-- Witness for C2 at a concrete fetched tree. -/
theorem edit_service_all_sentinels_id_witness :
    edit_service sampleTree 9 0 (-1) (-1) (-1) (-1) = Except.ok sampleTree :=
  edit_service_all_sentinels_id sampleTree 9 sampleVS [] sampleGroup [] rfl rfl

/-! ## C3 -/

/-- C3: calling `edit_service` with a concrete (non-sentinel) port and every
other parameter at its sentinel submits the fetched tree with exactly the
`port` field of the id-matching service(s) of the first group of the first
virtual server replaced; every other field of those services, every sibling
service, every other group and every other virtual server is submitted
unchanged (second conjunct: the rewriting function is the identity on every
service whose id does not match). -/
theorem edit_service_port_only_frame
    (virtual_servers : List VirtualServer) (service_id port : Int)
    (v0 : VirtualServer) (vrest : List VirtualServer)
    (g0 : ServiceGroup) (grest : List ServiceGroup)
    (hv : virtual_servers = v0 :: vrest)
    (hg : v0.serviceGroups = g0 :: grest)
    (hp : port ≠ -1) :
    edit_service virtual_servers service_id 0 port (-1) (-1) (-1) =
      Except.ok
        ({ v0 with serviceGroups :=
            { g0 with services := g0.services.map (fun s =>
                if s.id = some service_id then { s with port := port } else s) }
              :: grest } :: vrest) ∧
    ∀ s ∈ g0.services, s.id ≠ some service_id →
      (if s.id = some service_id then { s with port := port } else s) = s := by
  subst hv
  refine ⟨?_, fun s _ hs => if_neg hs⟩
  rw [edit_service_cons v0 vrest g0 grest hg,
    mapME_ok_of_eq _ _ _ (fun s _ => updService_port_only service_id port hp s)]

/-- Witness for C3 at a concrete fetched tree and port 8081. -/
theorem edit_service_port_only_frame_witness :
    edit_service sampleTree 9 0 8081 (-1) (-1) (-1) =
      Except.ok
        ({ sampleVS with serviceGroups :=
            { sampleGroup with services := sampleGroup.services.map (fun s =>
                if s.id = some 9 then { s with port := 8081 } else s) }
              :: [] } :: []) ∧
    ∀ s ∈ sampleGroup.services, s.id ≠ some 9 →
      (if s.id = some 9 then { s with port := 8081 } else s) = s :=
  edit_service_port_only_frame sampleTree 9 8081 sampleVS [] sampleGroup []
    rfl rfl (by decide)

/-! ## C9 -/

/-- C9 counterexample: a call whose target service id appears nowhere in the
fetched virtual-server tree need not submit the unmodified tree — when the
filtered fetch returns an empty list (which is exactly what the server-side
filter produces for an unknown service id), `virtual_servers[0]` raises a
local `IndexError` and nothing is submitted at all. -/
theorem edit_service_not_found_counterexample :
    edit_service [] 1 0 (-1) (-1) (-1) (-1) = Except.error PyErr.indexError :=
  rfl

/-- C9 as amended: provided the fetched tree does have a first virtual
server with a first service group, a call whose target service id appears
nowhere in the tree performs no mutation and submits the unmodified tree,
raising no local "service not found" error. -/
theorem edit_service_id_not_found_noop
    (virtual_servers : List VirtualServer)
    (service_id ip_address_id port enabled hc_type weight : Int)
    (v0 : VirtualServer) (vrest : List VirtualServer)
    (g0 : ServiceGroup) (grest : List ServiceGroup)
    (hv : virtual_servers = v0 :: vrest)
    (hg : v0.serviceGroups = g0 :: grest)
    (hnot : ∀ v ∈ virtual_servers, ∀ g ∈ v.serviceGroups, ∀ s ∈ g.services,
      s.id ≠ some service_id) :
    edit_service virtual_servers service_id ip_address_id port enabled hc_type weight =
      Except.ok virtual_servers := by
  subst hv
  have hsvc : ∀ s ∈ g0.services,
      updService service_id ip_address_id port enabled hc_type weight s =
        Except.ok s := by
    intro s hs
    refine updService_not_matching _ _ _ _ _ _ s ?_
    exact hnot v0 (List.mem_cons_self v0 vrest) g0 (hg ▸ List.mem_cons_self g0 grest) s hs
  rw [edit_service_cons v0 vrest g0 grest hg, mapME_ok_of_eq _ id _ hsvc]
  simp only [List.map_id]
  rw [← hg]

/-- Witness for the amended C9: service id 999 appears nowhere in the
sample tree, and the unmodified tree is submitted. -/
theorem edit_service_id_not_found_noop_witness :
    edit_service sampleTree 999 44 8082 0 22 5 = Except.ok sampleTree :=
  edit_service_id_not_found_noop sampleTree 999 44 8082 0 22 5 sampleVS []
    sampleGroup [] rfl rfl (by decide)

/-! ## C4 -/

/-- C4 counterexample: a call to `cancel_lb` does not always issue two
remote calls — when `getBillingItem` returns `None`, only the lookup call
is issued and the local subscript `lb_billing['id']` raises `TypeError`,
so the cancel call never happens. -/
theorem cancel_lb_single_call_counterexample :
    cancel_lb (fun _ => none) 7 =
      ([BillingCall.getBillingItem 7], Except.error PyErr.typeError) ∧
    (cancel_lb (fun _ => none) 7).1.length ≠ 2 := by
  exact ⟨rfl, by decide⟩

/-- C4 as amended: every call to `cancel_lb` for which the billing-item
lookup returns a billing item issues exactly two remote calls in order —
first the billing-item lookup keyed by the load-balancer id, then the
cancel keyed by the `id` field taken from the lookup's result. -/
theorem cancel_lb_two_calls_in_order
    (getBillingItemResp : Int → Option BillingItem) (loadbal_id : Int)
    (b : BillingItem) (hresp : getBillingItemResp loadbal_id = some b) :
    cancel_lb getBillingItemResp loadbal_id =
      ([BillingCall.getBillingItem loadbal_id, BillingCall.cancelService b.id],
       Except.ok b.id) := by
  unfold cancel_lb
  rw [hresp]

/-- Witness for the amended C4 at a concrete billing response. -/
theorem cancel_lb_two_calls_in_order_witness :
    cancel_lb (fun _ => some { id := 42 }) 7 =
      ([BillingCall.getBillingItem 7, BillingCall.cancelService 42],
       Except.ok 42) :=
  cancel_lb_two_calls_in_order (fun _ => some { id := 42 }) 7 { id := 42 } rfl

/-! ## C5 -/

/-- C5 counterexample: when the billing-item lookup returns no billing item,
the failure surfaced is not an error of the remote cancel step — the call
raises a local `TypeError` at `lb_billing['id']` and the second remote call
is never reached (the issued trace stops at the lookup). -/
theorem cancel_lb_none_counterexample :
    cancel_lb (fun _ => none) 3 =
      ([BillingCall.getBillingItem 3], Except.error PyErr.typeError) :=
  rfl

/-- C5 as amended: whenever the billing-item lookup returns no billing item,
`cancel_lb` raises a local type error while extracting the billing id and
issues only the lookup call — the remote billing cancel step is never
reached. -/
theorem cancel_lb_none_local_typeerror
    (getBillingItemResp : Int → Option BillingItem) (loadbal_id : Int)
    (hresp : getBillingItemResp loadbal_id = none) :
    cancel_lb getBillingItemResp loadbal_id =
      ([BillingCall.getBillingItem loadbal_id], Except.error PyErr.typeError) := by
  unfold cancel_lb
  rw [hresp]

/-- Witness for the amended C5 at a concrete empty billing response. -/
theorem cancel_lb_none_local_typeerror_witness :
    cancel_lb (fun _ => none) 5 =
      ([BillingCall.getBillingItem 5], Except.error PyErr.typeError) :=
  cancel_lb_none_local_typeerror (fun _ => none) 5 rfl

/-! ## C6 -/

/-- C6: for every datacenter name, if some returned record has that exact
name then `get_location` returns the id of such a record (the first match),
and if no record matches it returns the `FIRST_AVAILABLE` sentinel; the
function is total, so no input makes it raise. -/
theorem get_location_spec (dcenters : List Datacenter) (datacenter : String) :
    ((∃ d ∈ dcenters, d.name = datacenter) →
      ∃ d ∈ dcenters, d.name = datacenter ∧
        get_location dcenters datacenter = LocationResult.locationId d.id) ∧
    ((∀ d ∈ dcenters, d.name ≠ datacenter) →
      get_location dcenters datacenter = LocationResult.firstAvailable) := by
  induction dcenters with
  | nil =>
    exact ⟨fun h => absurd h (by simp), fun _ => rfl⟩
  | cons d rest ih =>
    by_cases hd : d.name = datacenter
    · refine ⟨fun _ => ⟨d, List.mem_cons_self d rest, hd, ?_⟩, fun hall => ?_⟩
      · simp [get_location, hd]
      · exact absurd hd (hall d (List.mem_cons_self d rest))
    · constructor
      · rintro ⟨d', hd', hname⟩
        rcases List.mem_cons.mp hd' with rfl | hmem
        · exact absurd hname hd
        · obtain ⟨e, he, hn, heq⟩ := ih.1 ⟨d', hmem, hname⟩
          exact ⟨e, List.mem_cons_of_mem d he, hn, by simp [get_location, hd, heq]⟩
      · intro hall
        have := ih.2 (fun x hx => hall x (List.mem_cons_of_mem d hx))
        simp [get_location, hd, this]

/-- Witness for C6: a known name resolves to its id, an unknown name
resolves to the sentinel. -/
theorem get_location_spec_witness :
    (∃ d ∈ [Datacenter.mk ("dal05") 3, Datacenter.mk ("sjc01") 18],
      d.name = "sjc01" ∧
        get_location [Datacenter.mk ("dal05") 3, Datacenter.mk ("sjc01") 18]
          ("sjc01") = LocationResult.locationId d.id) ∧
    get_location [Datacenter.mk ("dal05") 3, Datacenter.mk ("sjc01") 18]
      ("ams01") = LocationResult.firstAvailable :=
  ⟨(get_location_spec [Datacenter.mk ("dal05") 3, Datacenter.mk ("sjc01") 18]
      ("sjc01")).1 ⟨Datacenter.mk ("sjc01") 18, by decide, rfl⟩,
   (get_location_spec [Datacenter.mk ("dal05") 3, Datacenter.mk ("sjc01") 18]
      ("ams01")).2 (by decide)⟩

/-! ## C7 -/

/-- C7: `add_service_group` on a fetched load balancer with N virtual
servers submits a payload with exactly N+1 virtual-server entries: the
fetched entries unchanged, followed by one appended entry that carries the
supplied port and allocation and a single nested service-group record with
the supplied routing type id and routing method id (and no id of its own). -/
theorem add_service_group_appends
    (load_balancer : LoadBalancer)
    (allocation port routing_type routing_method : Int) :
    (add_service_group load_balancer allocation port routing_type
        routing_method).virtualServers.length =
      load_balancer.virtualServers.length + 1 ∧
    (add_service_group load_balancer allocation port routing_type
        routing_method).virtualServers =
      load_balancer.virtualServers ++
        [{ id := none
           allocation := allocation
           port := port
           serviceGroups := [{ id := none
                               routingTypeId := routing_type
                               routingMethodId := routing_method
                               services := [] }] }] ∧
    (add_service_group load_balancer allocation port routing_type
        routing_method).id = load_balancer.id := by
  refine ⟨?_, rfl, rfl⟩
  simp [add_service_group]

/-! ## C8 -/

/-- C8: whenever `reset_service_group` reaches its kick-all-connections
call, the id it passes is the one extracted from the first service group of
the first virtual server of the filtered fetch — the resolved nested id.
The caller-supplied group id does not enter the call at all: the result is
the same for every caller-supplied group id (second conjunct). -/
theorem reset_service_group_resolved_id
    (virtual_servers : List VirtualServer) (group_id : Int) :
    (∀ kicked, reset_service_group virtual_servers group_id = Except.ok kicked →
      ∃ v0 g0, virtual_servers.head? = some v0 ∧
        v0.serviceGroups.head? = some g0 ∧ kicked = g0.id) ∧
    (∀ other_id : Int, reset_service_group virtual_servers group_id =
      reset_service_group virtual_servers other_id) := by
  constructor
  · intro kicked hk
    match virtual_servers with
    | [] => exact absurd hk (by simp [reset_service_group])
    | v0 :: vrest =>
      match hg : v0.serviceGroups with
      | [] =>
        rw [reset_service_group, hg] at hk
        exact absurd hk (by simp)
      | g0 :: grest =>
        rw [reset_service_group, hg] at hk
        exact ⟨v0, g0, rfl, by rw [hg]; rfl, (Except.ok.injEq _ _).mp hk.symm⟩
  · intro other_id
    rfl

/-- Witness for C8: on the sample tree the kicked id is the nested group id
`some 4`, whatever group id the caller supplied (99 here). -/
theorem reset_service_group_resolved_id_witness :
    ∃ v0 g0, sampleTree.head? = some v0 ∧
      v0.serviceGroups.head? = some g0 ∧ (some 4 : Option Int) = g0.id :=
  (reset_service_group_resolved_id sampleTree 99).1 (some 4) rfl

/-! ## C10: confinement of nested mutations to the first service group -/

theorem addServiceBody_not_matching
    (service_group_id ip_address_id port enabled hc_type weight : Int)
    (v : VirtualServer) (h : v.id ≠ some service_group_id) :
    addServiceBody service_group_id ip_address_id port enabled hc_type weight v =
      Except.ok v := by
  unfold addServiceBody
  rw [if_neg h]

theorem addServiceBody_matching
    (service_group_id ip_address_id port enabled hc_type weight : Int)
    (v : VirtualServer) (g0 : ServiceGroup) (grest : List ServiceGroup)
    (hid : v.id = some service_group_id) (hsg : v.serviceGroups = g0 :: grest) :
    addServiceBody service_group_id ip_address_id port enabled hc_type weight v =
      Except.ok { v with serviceGroups :=
        { g0 with services := g0.services ++
            [service_template ip_address_id port enabled hc_type weight] }
          :: grest } := by
  unfold addServiceBody
  rw [if_pos hid, hsg]

theorem editServiceGroupBody_not_matching
    (group_id allocation port routing_type routing_method : Int)
    (v : VirtualServer) (h : v.id ≠ some group_id) :
    editServiceGroupBody group_id allocation port routing_type routing_method v =
      Except.ok v := by
  unfold editServiceGroupBody
  rw [if_neg h]

theorem editServiceGroupBody_matching
    (group_id allocation port routing_type routing_method : Int)
    (v : VirtualServer) (g0 : ServiceGroup) (grest : List ServiceGroup)
    (hid : v.id = some group_id) (hsg : v.serviceGroups = g0 :: grest) :
    editServiceGroupBody group_id allocation port routing_type routing_method v =
      Except.ok
        { id := v.id
          allocation := if allocation ≠ -1 then allocation else v.allocation
          port := if port ≠ 0 then port else v.port
          serviceGroups :=
            { id := g0.id
              routingTypeId :=
                if routing_type ≠ 0 then routing_type else g0.routingTypeId
              routingMethodId :=
                if routing_method ≠ 0 then routing_method else g0.routingMethodId
              services := g0.services } :: grest } := by
  unfold editServiceGroupBody
  rw [if_pos hid, hsg]
  by_cases h1 : allocation ≠ -1 <;> by_cases h2 : port ≠ 0 <;>
    by_cases h3 : routing_type ≠ 0 <;> by_cases h4 : routing_method ≠ 0 <;>
    simp [h1, h2, h3, h4]

/-- C10: every nested mutation is confined to the first service group.
First conjunct (`edit_service`): the submitted tree can differ from the
fetched one only inside the services list of the first service group of the
first virtual server, and there only at services whose id matches.  Second
conjunct (`add_service`): every virtual server whose id does not match is
submitted untouched, and a matching one only has the template appended to
its first service group (index 0), its remaining groups unchanged.  Third
conjunct (`edit_service_group`): a matching virtual server only has
allocation/port and the routing fields of its first service group
overwritten; its first group's id and services and all its other groups are
unchanged, and non-matching virtual servers are untouched.  In all three,
a service or group with a matching id anywhere else in the tree is never
modified. -/
theorem nested_mutations_first_group_only :
    (∀ (service_id ip_address_id port enabled hc_type weight : Int)
        (virtual_servers out : List VirtualServer),
      edit_service virtual_servers service_id ip_address_id port enabled
          hc_type weight = Except.ok out →
      ∃ v0 vrest g0 grest services',
        virtual_servers = v0 :: vrest ∧
        v0.serviceGroups = g0 :: grest ∧
        out = ({ v0 with serviceGroups :=
          { g0 with services := services' } :: grest } :: vrest) ∧
        List.Forall₂ (fun s s' => s.id ≠ some service_id → s' = s)
          g0.services services') ∧
    (∀ (service_group_id ip_address_id port enabled hc_type weight : Int)
        (load_balancer out : LoadBalancer),
      add_service load_balancer service_group_id ip_address_id port enabled
          hc_type weight = Except.ok out →
      out.id = load_balancer.id ∧
      List.Forall₂ (fun v v' =>
          (v.id ≠ some service_group_id → v' = v) ∧
          (v.id = some service_group_id → ∃ g0 grest,
            v.serviceGroups = g0 :: grest ∧
            v' = { v with serviceGroups :=
              { g0 with services := g0.services ++
                  [service_template ip_address_id port enabled hc_type weight] }
                :: grest }))
        load_balancer.virtualServers out.virtualServers) ∧
    (∀ (group_id allocation port routing_type routing_method : Int)
        (load_balancer out : LoadBalancer),
      edit_service_group load_balancer group_id allocation port routing_type
          routing_method = Except.ok out →
      out.id = load_balancer.id ∧
      List.Forall₂ (fun v v' =>
          (v.id ≠ some group_id → v' = v) ∧
          (v.id = some group_id → ∃ g0 grest,
            v.serviceGroups = g0 :: grest ∧
            v' = { id := v.id
                   allocation := if allocation ≠ -1 then allocation
                                 else v.allocation
                   port := if port ≠ 0 then port else v.port
                   serviceGroups :=
                     { id := g0.id
                       routingTypeId := if routing_type ≠ 0 then routing_type
                                        else g0.routingTypeId
                       routingMethodId := if routing_method ≠ 0 then routing_method
                                          else g0.routingMethodId
                       services := g0.services } :: grest }))
        load_balancer.virtualServers out.virtualServers) := by
  refine ⟨?_, ?_, ?_⟩
  · intro service_id ip_address_id port enabled hc_type weight vs out hk
    rcases vs with _ | ⟨v0, vrest⟩
    · exact absurd hk (by simp [edit_service])
    rcases hg : v0.serviceGroups with _ | ⟨g0, grest⟩
    · simp only [edit_service] at hk
      rw [hg] at hk
      exact absurd hk (by simp)
    rw [edit_service_cons v0 vrest g0 grest hg] at hk
    cases hmap : mapME (updService service_id ip_address_id port enabled
        hc_type weight) g0.services with
    | error e => rw [hmap] at hk; exact absurd hk (by simp)
    | ok services' =>
      rw [hmap] at hk
      refine ⟨v0, vrest, g0, grest, services', rfl, hg,
        (Except.ok.inj hk).symm, ?_⟩
      refine (mapME_ok_forall₂ _ _ _ hmap).imp (fun a b hab hne => ?_)
      rw [updService_not_matching service_id ip_address_id port enabled hc_type
        weight a hne] at hab
      exact (Except.ok.inj hab).symm
  · intro service_group_id ip_address_id port enabled hc_type weight lb out hk
    unfold add_service at hk
    cases hmap : mapME (addServiceBody service_group_id ip_address_id port
        enabled hc_type weight) lb.virtualServers with
    | error e => rw [hmap] at hk; exact absurd hk (by simp)
    | ok vs' =>
      rw [hmap] at hk
      obtain rfl : ({ lb with virtualServers := vs' } : LoadBalancer) = out :=
        Except.ok.inj hk
      refine ⟨rfl, ?_⟩
      refine (mapME_ok_forall₂ _ _ _ hmap).imp (fun a b hab => ?_)
      by_cases hid : a.id = some service_group_id
      · refine ⟨fun hne => absurd hid hne, fun _ => ?_⟩
        rcases hsg : a.serviceGroups with _ | ⟨g0, grest⟩
        · rw [addServiceBody, if_pos hid, hsg] at hab
          exact absurd hab (by simp)
        · rw [addServiceBody_matching service_group_id ip_address_id port
            enabled hc_type weight a g0 grest hid hsg] at hab
          exact ⟨g0, grest, rfl, (Except.ok.inj hab).symm⟩
      · refine ⟨fun _ => ?_, fun h => absurd h hid⟩
        rw [addServiceBody_not_matching service_group_id ip_address_id port
          enabled hc_type weight a hid] at hab
        exact (Except.ok.inj hab).symm
  · intro group_id allocation port routing_type routing_method lb out hk
    unfold edit_service_group at hk
    cases hmap : mapME (editServiceGroupBody group_id allocation port
        routing_type routing_method) lb.virtualServers with
    | error e => rw [hmap] at hk; exact absurd hk (by simp)
    | ok vs' =>
      rw [hmap] at hk
      obtain rfl : ({ lb with virtualServers := vs' } : LoadBalancer) = out :=
        Except.ok.inj hk
      refine ⟨rfl, ?_⟩
      refine (mapME_ok_forall₂ _ _ _ hmap).imp (fun a b hab => ?_)
      by_cases hid : a.id = some group_id
      · refine ⟨fun hne => absurd hid hne, fun _ => ?_⟩
        rcases hsg : a.serviceGroups with _ | ⟨g0, grest⟩
        · rw [editServiceGroupBody, if_pos hid, hsg] at hab
          exact absurd hab (by simp)
        · rw [editServiceGroupBody_matching group_id allocation port
            routing_type routing_method a g0 grest hid hsg] at hab
          exact ⟨g0, grest, rfl, (Except.ok.inj hab).symm⟩
      · refine ⟨fun _ => ?_, fun h => absurd h hid⟩
        rw [editServiceGroupBody_not_matching group_id allocation port
          routing_type routing_method a hid] at hab
        exact (Except.ok.inj hab).symm

/-- The payload `add_service` submits for the sample load balancer when
appending a service to the virtual server with id 7. -/
def sampleAddServicePayload : LoadBalancer :=
  { id := 55
    virtualServers := [{ sampleVS with serviceGroups :=
        [{ sampleGroup with services :=
            sampleGroup.services ++ [service_template 14 8088 1 21 2] }] }] }

/-- The payload `edit_service_group` submits for the sample load balancer
when editing the virtual server with id 7 (allocation 50, port 81, routing
type 3, routing method left at its 0 sentinel). -/
def sampleEditGroupPayload : LoadBalancer :=
  { id := 55
    virtualServers := [{ id := some 7
                         allocation := 50
                         port := 81
                         serviceGroups := [{ id := some 4
                                             routingTypeId := 3
                                             routingMethodId := 10
                                             services := sampleGroup.services }] }] }

/-- Witness for C10: each of the three conjuncts applied at a concrete
fetched object and concrete parameters. -/
theorem nested_mutations_first_group_only_witness :
    (∃ v0 vrest g0 grest services',
      sampleTree = v0 :: vrest ∧
      v0.serviceGroups = g0 :: grest ∧
      sampleTree = ({ v0 with serviceGroups :=
        { g0 with services := services' } :: grest } :: vrest) ∧
      List.Forall₂ (fun s s' => s.id ≠ some 9 → s' = s)
        g0.services services') ∧
    (sampleAddServicePayload.id = sampleLB.id ∧
      List.Forall₂ (fun v v' =>
          (v.id ≠ some 7 → v' = v) ∧
          (v.id = some 7 → ∃ g0 grest,
            v.serviceGroups = g0 :: grest ∧
            v' = { v with serviceGroups :=
              { g0 with services := g0.services ++
                  [service_template 14 8088 1 21 2] } :: grest }))
        sampleLB.virtualServers sampleAddServicePayload.virtualServers) ∧
    (sampleEditGroupPayload.id = sampleLB.id ∧
      List.Forall₂ (fun v v' =>
          (v.id ≠ some 7 → v' = v) ∧
          (v.id = some 7 → ∃ g0 grest,
            v.serviceGroups = g0 :: grest ∧
            v' = { id := v.id
                   allocation := if (50 : Int) ≠ -1 then 50 else v.allocation
                   port := if (81 : Int) ≠ 0 then 81 else v.port
                   serviceGroups :=
                     { id := g0.id
                       routingTypeId := if (3 : Int) ≠ 0 then 3
                                        else g0.routingTypeId
                       routingMethodId := if (0 : Int) ≠ 0 then 0
                                          else g0.routingMethodId
                       services := g0.services } :: grest }))
        sampleLB.virtualServers sampleEditGroupPayload.virtualServers) :=
  ⟨nested_mutations_first_group_only.1 9 0 (-1) (-1) (-1) (-1)
      sampleTree sampleTree (by rfl),
   nested_mutations_first_group_only.2.1 7 14 8088 1 21 2
      sampleLB sampleAddServicePayload (by rfl),
   nested_mutations_first_group_only.2.2 7 50 81 3 0
      sampleLB sampleEditGroupPayload (by rfl)⟩
